import Mathlib

/-!
Shallow embedding of the curricula grading engine (csci104/curricula).

The definitions below are translated from the repository's Python sources:
  * `src/grade/library/valgrind.py` — memory-analysis adapter
    (`ValgrindWhat`, `ValgrindError`, `ValgrindReport`, `run`),
  * `src/curricula/grade/__init__.py` — per-assignment grading loop (`run`),
  * `src/curricula/grade/plugin.py` — the `grade` CLI plugin
    (`single`, `GradePlugin.run`).
Components of the repository that the claims depend on but whose sources are
not available (the process runner `grade/library/process.py`, the report
model `curricula/grade/report.py`, and the grader/assignment models) are
modelled from the specification; each such definition carries a doc comment
starting with `Modelled from the spec:`.

Python exceptions are embedded as `Except PyError`; machine-level concerns
do not arise (Python integers are unbounded, so `Nat`/`Int` are exact).
-/

namespace Curricula

/-- Python exception classes relevant to the embedded code.  `keyError` and
`indexError` are the two subclasses of Python's `LookupError`;
`attributeError`, `typeError`, `valueError` and `nameError` are not lookup
errors. -/
inductive PyError where
  | typeError
  | attributeError
  | keyError
  | indexError
  | valueError
  | nameError
deriving DecidableEq, Repr

/-- Python's `LookupError` hierarchy: `KeyError` and `IndexError` derive from
`LookupError`; no other built-in exception used here does. -/
def PyError.isLookupError : PyError → Bool
  | .keyError => true
  | .indexError => true
  | _ => false

/-- Value of a decimal digit character, `none` otherwise. -/
def decDigit? (c : Char) : Option Nat :=
  if c.isDigit then some (c.toNat - 48) else none

/-- Value of a hexadecimal digit character, `none` otherwise. -/
def hexDigit? (c : Char) : Option Nat :=
  if c.isDigit then some (c.toNat - 48)
  else if 97 ≤ c.toNat ∧ c.toNat ≤ 102 then some (c.toNat - 87)
  else if 65 ≤ c.toNat ∧ c.toNat ≤ 70 then some (c.toNat - 55)
  else none

/-- Fold a list of characters as digits in the given base; `none` on the
empty list or on a non-digit. -/
def parseDigits (digit? : Char → Option Nat) (base : Nat) : List Char → Option Nat
  | [] => none
  | cs => cs.foldl (fun acc c => acc.bind fun n => (digit? c).map (n * base + ·)) (some 0)

/-- Python `int(s)` on canonical non-negative decimal strings (the only form
the report producer emits): digits only, `ValueError` (here `none`)
otherwise. -/
def pyIntDec (s : String) : Option Nat :=
  parseDigits decDigit? 10 s.data

/-- Python `int(s, 16)` on canonical non-negative hexadecimal strings: an
optional `0x`/`0X` prefix followed by hex digits, `none` otherwise. -/
def pyIntHex (s : String) : Option Nat :=
  match s.data with
  | '0' :: 'x' :: rest => parseDigits hexDigit? 16 rest
  | '0' :: 'X' :: rest => parseDigits hexDigit? 16 rest
  | cs => parseDigits hexDigit? 16 cs

/-- An `xml.etree.ElementTree.Element`: a tag, optional text, and child
elements (attributes are never consulted by the embedded code). -/
inductive Element where
  | mk (tag : String) (text : Option String) (children : List Element)

/-- The element's tag. -/
def Element.tag : Element → String
  | .mk t _ _ => t

/-- The element's text, `None` when absent. -/
def Element.text : Element → Option String
  | .mk _ t _ => t

/-- The element's child elements. -/
def Element.children : Element → List Element
  | .mk _ _ c => c

/-- `element.find(tag)`: the first child with the given tag, else `None`. -/
def Element.find (e : Element) (t : String) : Option Element :=
  e.children.find? (fun c => c.tag = t)

/-- Python truthiness of an `Element`: `Element.__bool__` is
`len(self) != 0`, i.e. an element with no children is falsy. -/
def Element.truthy (e : Element) : Bool :=
  !e.children.isEmpty

/-- Python `a or b` on two `Optional[Element]` values: `a` when `a` is a
truthy element, else `b`. -/
def pyOrElem (a b : Option Element) : Option Element :=
  match a with
  | some x => if x.truthy then some x else b
  | none => b

/-- A Python `dict` over string keys, with insertion order:
`d[k] = v` updates the value in place when the key exists and appends
otherwise. -/
def dictInsert (d : List (String × Option String)) (k : String) (v : Option String) :
    List (String × Option String) :=
  if d.any (fun p => p.1 = k) then
    d.map (fun p => if p.1 = k then (k, v) else p)
  else
    d ++ [(k, v)]

/-- `dict` lookup: `some` of the stored value when the key is present. -/
def dictFind (d : List (String × Option String)) (k : String) : Option (Option String) :=
  (d.find? (fun p => p.1 = k)).map (fun p => p.2)

/-- `ValgrindWhat` from `grade/library/valgrind.py`: explanation of an error;
`text` is `Optional[str]` at runtime (element text may be `None`), `fields`
is a `dict` of child tag to child text. -/
structure ValgrindWhat where
  text : Option String
  fields : List (String × Option String)
deriving DecidableEq, Repr

/-- `ValgrindWhat.load`: `None` maps to `None`; a `what` element maps to its
text with empty fields; any other element (an `xwhat`) folds its children,
a `tag` child setting the text and every other child inserted as a field. -/
def ValgrindWhat.load : Option Element → Option ValgrindWhat
  | none => none
  | some element =>
    if element.tag = "what" then
      some ⟨element.text, []⟩
    else
      let acc := element.children.foldl
        (fun (acc : Option String × List (String × Option String)) child =>
          if child.tag = "tag" then (child.text, acc.2)
          else (acc.1, dictInsert acc.2 child.tag child.text))
        (some "", [])
      some ⟨acc.1, acc.2⟩

/-- `ValgrindError` from `grade/library/valgrind.py`: one `<error>` entry of
the report.  `kind` is `Optional[str]` at runtime (the `<kind>` element's
text may be `None`). -/
structure ValgrindError where
  unique : Nat
  tid : Nat
  kind : Option String
  what : Option ValgrindWhat
deriving DecidableEq, Repr

/-- `ValgrindError.load`: `unique` is the hex-parsed `<unique>` text, `tid`
the decimal `<tid>` text, `kind` the `<kind>` text, and `what` is
`ValgrindWhat.load(element.find("what") or element.find("xwhat"))` — with
Python `or` evaluating element truthiness.  A missing child raises
`AttributeError` (`None.text`), a `None` text raises `TypeError`
(`int(None, ...)`), an unparsable text raises `ValueError`. -/
def ValgrindError.load (element : Element) : Except PyError ValgrindError :=
  match element.find "unique" with
  | none => .error .attributeError
  | some uEl =>
    match uEl.text with
    | none => .error .typeError
    | some uTxt =>
      match pyIntHex uTxt with
      | none => .error .valueError
      | some unique =>
        match element.find "tid" with
        | none => .error .attributeError
        | some tEl =>
          match tEl.text with
          | none => .error .typeError
          | some tTxt =>
            match pyIntDec tTxt with
            | none => .error .valueError
            | some tid =>
              match element.find "kind" with
              | none => .error .attributeError
              | some kEl =>
                .ok ⟨unique, tid, kEl.text,
                  ValgrindWhat.load (pyOrElem (element.find "what") (element.find "xwhat"))⟩

/-- Modelled from the spec: `grade/library/process.py` is not among the
sources; `Runtime` is its "immutable snapshot of one process execution —
stdout, stderr, exit code (negative = signal number), elapsed time, timeout
flag", with the exit code `none` when it is undefined (`timeout=true`). -/
structure Runtime where
  stdout : String
  stderr : String
  code : Option Int
  elapsed : Nat
  timeout : Bool
deriving DecidableEq, Repr

/-- `ValgrindReport` from `grade/library/valgrind.py`: the analyzed process's
runtime and the parsed error list, `None` when no report file was
produced. -/
structure ValgrindReport where
  runtime : Runtime
  errors : Option (List ValgrindError)
deriving DecidableEq, Repr

/-- The three leak kinds tested by `memory_lost`
(`error.kind in ("Leak_DefinitelyLost", "Leak_IndirectlyLost",
"Leak_PossiblyLost")`; a `None` kind is in none of them). -/
def isLeakKind (k : Option String) : Bool :=
  k = some "Leak_DefinitelyLost" ∨ k = some "Leak_IndirectlyLost" ∨ k = some "Leak_PossiblyLost"

/-- The two `int(error.what.fields[...])` accesses of one leak entry, in
source order: `error.what` being `None` raises `AttributeError`, a missing
key raises `KeyError`, a `None` value raises `TypeError` (`int(None)`), an
unparsable value raises `ValueError`. -/
def leakEntryLost (e : ValgrindError) : Except PyError (Nat × Nat) :=
  match e.what with
  | none => .error .attributeError
  | some w =>
    match dictFind w.fields "leakedbytes" with
    | none => .error .keyError
    | some vb =>
      match vb with
      | none => .error .typeError
      | some sb =>
        match pyIntDec sb with
        | none => .error .valueError
        | some nb =>
          match dictFind w.fields "leakedblocks" with
          | none => .error .keyError
          | some vk =>
            match vk with
            | none => .error .typeError
            | some sk =>
              match pyIntDec sk with
              | none => .error .valueError
              | some nk => .ok (nb, nk)

/-- The accumulation loop of `memory_lost`: `leaked_bytes`/`leaked_blocks`
grow by the parsed field values of each leak-kind entry; other entries are
skipped. -/
def memoryLostLoop : List ValgrindError → Nat → Nat → Except PyError (Nat × Nat)
  | [], b, k => .ok (b, k)
  | e :: rest, b, k =>
    if isLeakKind e.kind then
      match leakEntryLost e with
      | .error err => .error err
      | .ok (nb, nk) => memoryLostLoop rest (b + nb) (k + nk)
    else
      memoryLostLoop rest b k

/-- `ValgrindReport.memory_lost`: iterates `self.errors` (iterating `None`
raises `TypeError`) summing the leaked bytes and blocks of leak-kind
entries. -/
def ValgrindReport.memory_lost (r : ValgrindReport) : Except PyError (Nat × Nat) :=
  match r.errors with
  | none => .error .typeError
  | some errs => memoryLostLoop errs 0 0

/-- The per-entry contribution used to state what `memory_lost` computes:
the parsed `(leakedbytes, leakedblocks)` pair of an entry whose lookups all
succeed. -/
def entryLost (e : ValgrindError) : Nat × Nat :=
  (leakEntryLost e).toOption.getD (0, 0)

/-- Sum of `entryLost` over exactly the leak-kind entries of a list. -/
def leakSums (l : List ValgrindError) : Nat × Nat :=
  l.foldr
    (fun e p => if isLeakKind e.kind then ((entryLost e).1 + p.1, (entryLost e).2 + p.2) else p)
    (0, 0)

/-- The loop of `run` over the report root's children: every `error` child
is loaded in order, a load failure propagating as the raised exception. -/
def loadErrors : List Element → Except PyError (List ValgrindError)
  | [] => .ok []
  | c :: rest =>
    if c.tag = "error" then
      match ValgrindError.load c with
      | .error e => .error e
      | .ok v => (loadErrors rest).map (v :: ·)
    else
      loadErrors rest

/-- `run` from `grade/library/valgrind.py`, after the subprocess finished
with the given `runtime`.  The file system is the optional parsed root of
`valgrind.xml`; the second component is the file's state when the call
returns or raises.  If the file exists its `error` children are parsed, the
file is removed, and the report carries the error list; a parse exception
propagates before `os.remove` runs, retaining the file.  If the file is
absent the report carries a `None` error list and nothing is touched. -/
def valgrindRun (runtime : Runtime) (xmlFile : Option Element) :
    Except PyError ValgrindReport × Option Element :=
  match xmlFile with
  | some root =>
    match loadErrors root.children with
    | .error e => (.error e, some root)
    | .ok errs => (.ok ⟨runtime, some errs⟩, none)
  | none => (.ok ⟨runtime, none⟩, none)

/-- Modelled from the spec: `curricula/grade/report.py` is not among the
sources.  A `Result` persists as `{name, status, details, log}` with status
"passed/failed/skipped". -/
inductive Status where
  | passed
  | failed
  | skipped
deriving DecidableEq, Repr

/-- Serialized form of a status. -/
def Status.dump : Status → String
  | .passed => "passed"
  | .failed => "failed"
  | .skipped => "skipped"

/-- Inverse of `Status.dump`. -/
def Status.parse (s : String) : Option Status :=
  if s = "passed" then some .passed
  else if s = "failed" then some .failed
  else if s = "skipped" then some .skipped
  else none

/-- Modelled from the spec: a task outcome — "pass/fail status, free-form
details map, attached log entries", persisted as `{name, status, details,
log}`. -/
structure Result where
  name : String
  status : Status
  details : List (String × String)
  log : List String
deriving DecidableEq, Repr

/-- The literal JSON-like values `dump()` produces. -/
inductive Json where
  | str (s : String)
  | arr (l : List Json)
  | obj (l : List (String × Json))

/-- `Result.dump`, modelled from the spec's persisted form
`{name, status, details, log}`. -/
def Result.dump (r : Result) : Json :=
  .obj [("name", .str r.name),
        ("status", .str r.status.dump),
        ("details", .obj (r.details.map (fun p => (p.1, Json.str p.2)))),
        ("log", .arr (r.log.map Json.str))]

/-- Parse a JSON object whose values are all strings back to a string map. -/
def parseStrPairs : List (String × Json) → Option (List (String × String))
  | [] => some []
  | (k, .str v) :: rest => (parseStrPairs rest).map ((k, v) :: ·)
  | _ => none

/-- Parse a JSON array of strings back to a string list. -/
def parseStrs : List Json → Option (List String)
  | [] => some []
  | .str s :: rest => (parseStrs rest).map (s :: ·)
  | _ => none

/-- Inverse of `Result.dump`. -/
def Result.parse : Json → Option Result
  | .obj [("name", .str n), ("status", .str st), ("details", .obj d), ("log", .arr lg)] =>
    (Status.parse st).bind fun status =>
      (parseStrPairs d).bind fun details =>
        (parseStrs lg).map fun log => ⟨n, status, details, log⟩
  | _ => none

/-- Modelled from the spec: `AssignmentReport` is an "ordered mapping
problem-short-name → ordered Result sequence"; as a Python `dict` it keeps
insertion order. -/
abbrev AssignmentReport := List (String × List Result)

/-- `reports[problem.short] = results`: dict assignment, updating in place
when the key exists and appending otherwise. -/
def reportInsert (rep : AssignmentReport) (k : String) (v : List Result) : AssignmentReport :=
  if (rep : List (String × List Result)).any (fun p => p.1 = k) then
    (rep : List (String × List Result)).map (fun p => if p.1 = k then (k, v) else p)
  else
    (rep : List (String × List Result)) ++ [(k, v)]

/-- The report's top-level keys, in insertion order. -/
def reportKeys (rep : AssignmentReport) : List String :=
  (rep : List (String × List Result)).map (fun p => p.1)

/-- `AssignmentReport.dump`: the fully literal, insertion-order-preserving
persisted structure — an object keyed by problem short name, each value the
ordered array of dumped results. -/
def AssignmentReport.dump (rep : AssignmentReport) : Json :=
  .obj ((rep : List (String × List Result)).map
    (fun p => (p.1, Json.arr (p.2.map Result.dump))))

/-- Parse a JSON array back to an ordered `Result` list. -/
def parseResults : List Json → Option (List Result)
  | [] => some []
  | j :: rest => (Result.parse j).bind fun r => (parseResults rest).map (r :: ·)

/-- Parse the entries of a dumped report object. -/
def parseReportEntries : List (String × Json) → Option (List (String × List Result))
  | [] => some []
  | (k, .arr l) :: rest =>
    (parseResults l).bind fun rs => (parseReportEntries rest).map ((k, rs) :: ·)
  | _ => none

/-- Inverse of `AssignmentReport.dump`. -/
def AssignmentReport.parse : Json → Option AssignmentReport
  | .obj entries => parseReportEntries entries
  | _ => none

/-- Modelled from the spec: `curricula/grade/models.py` is not among the
sources.  A grading problem has a short name, a relative path, the
`grading.is_automated` flag, and its grader; the grader's run
(`problem.grader.run(submission=..., context=...)`) is modelled as the
ordered `Result` sequence it returns for this run. -/
structure GradingProblem where
  short : String
  relative_path : String
  is_automated : Bool
  graderResults : List Result

/-- Modelled from the spec: an assignment is its ordered problem list. -/
structure GradingAssignment where
  problems : List GradingProblem

/-- `run` from `src/curricula/grade/__init__.py`: starting from an empty
`AssignmentReport`, iterate the assignment's automated problems in order and
assign `reports[problem.short] = problem.grader.run(...)`. -/
def curriculaRun (assignment : GradingAssignment) : AssignmentReport :=
  (assignment.problems.filter (fun p => p.is_automated)).foldl
    (fun rep p => reportInsert rep p.short p.graderResults) []

/-- Modelled from the spec: `curricula/grade/resource.py` is not among the
sources.  A `Context` is the immutable per-run configuration: the target
path and the options map. -/
structure Context where
  target : String
  options : List (String × String)

/-- Modelled from the spec: `curricula/grade/grader.py` is not among the
sources; "Grader invocation: `run(context) -> ordered Result sequence`",
dumped through the report model, so a grader maps a `Context` to the
`AssignmentReport` its `run` returns. -/
abbrev Grader := Context → AssignmentReport

/-- `Path(target).absolute()`: an already absolute path is unchanged,
otherwise the working directory is prepended. -/
def absolutePath (cwd target : String) : String :=
  if target.startsWith "/" then target else cwd ++ "/" ++ target

/-- `single` from `src/curricula/grade/plugin.py`: build a `Context` from
the absolute target path and the remaining arguments, run the grader, and
dump the report (the JSON value written to the report file). -/
def single (grader : Grader) (cwd target : String) (options : List (String × String)) : Json :=
  AssignmentReport.dump (grader ⟨absolutePath cwd target, options⟩)

/-- A Python value in the plugin module's namespace: either a grader or
some other object. -/
inductive PyValue where
  | graderV (g : Grader)
  | otherV

/-- The names bound at module level in `src/curricula/grade/plugin.py`: its
imports (`argparse`, `json`, `Path`, `Grader`, `Context`, `summarize`,
`Plugin`) and its own definitions (`MODES`, `single`, `GradePlugin`).  No
name `grader` is ever bound. -/
def pluginGlobalEnv : List (String × PyValue) :=
  [("argparse", .otherV), ("json", .otherV), ("Path", .otherV),
   ("Grader", .otherV), ("Context", .otherV), ("summarize", .otherV),
   ("Plugin", .otherV), ("MODES", .otherV), ("single", .otherV),
   ("GradePlugin", .otherV)]

/-- Python name resolution against a module namespace: an unbound name
raises `NameError`. -/
def lookupName (env : List (String × PyValue)) (n : String) : Except PyError PyValue :=
  match env.find? (fun p => p.1 = n) with
  | some p => .ok p.2
  | none => .error .nameError

/-- `GradePlugin.run` from `src/curricula/grade/plugin.py`: dispatch on the
parsed subcommand.  `single(grader, args)` and `summarize(grader, args)`
both evaluate the module-level name `grader`; on success of the `single`
branch the result is the report path paired with the JSON written there. -/
def gradePluginRun (cwd command target report : String) :
    Except PyError (Option (String × Json)) :=
  if command = "single" then
    match lookupName pluginGlobalEnv "grader" with
    | .error e => .error e
    | .ok v =>
      match v with
      | .graderV g => .ok (some (report, single g cwd target []))
      | .otherV => .error .typeError
  else if command = "summarize" then
    match lookupName pluginGlobalEnv "grader" with
    | .error e => .error e
    | .ok _ => .ok none
  else
    .ok none

/-- Modelled from the spec: `grade/library/process.py` is not among the
sources.  What the child process would do, observed at the deadline: exit
normally with a status, die on a signal, or still be running (`hangs`) with
the output produced so far. -/
inductive ProcessBehavior where
  | exits (status : Nat) (stdout stderr : String) (elapsed : Nat)
  | signaled (signal : Nat) (stdout stderr : String) (elapsed : Nat)
  | hangs (stdout stderr : String)

/-- Modelled from the spec: `run(command, args, timeout) -> Runtime`.  A
completion within the deadline captures the real exit status, a signal
termination the negative signal number; past the deadline the process tree
is killed, `timeout` is set, the exit code is undefined (`none`) and the
output is whatever was produced. -/
def processRun (behavior : ProcessBehavior) (timeout : Nat) : Runtime :=
  match behavior with
  | .exits status out err elapsed =>
    if elapsed ≤ timeout then ⟨out, err, some (Int.ofNat status), elapsed, false⟩
    else ⟨out, err, none, timeout, true⟩
  | .signaled sg out err elapsed =>
    if elapsed ≤ timeout then ⟨out, err, some (-(Int.ofNat sg)), elapsed, false⟩
    else ⟨out, err, none, timeout, true⟩
  | .hangs out err => ⟨out, err, none, timeout, true⟩

/-- Whether an `Except` value is a normal return. -/
def isOkB {ε α : Type} : Except ε α → Bool
  | .ok _ => true
  | .error _ => false

/-- A sample runtime for concrete instances. -/
def rt0 : Runtime := ⟨"", "", some 0, 1, false⟩

/-- A definite-leak entry carrying `leakedbytes=128`, `leakedblocks=2`. -/
def e128 : ValgrindError :=
  ⟨1, 1, some "Leak_DefinitelyLost",
   some ⟨some "definitely lost", [("leakedbytes", some "128"), ("leakedblocks", some "2")]⟩⟩

/-- An unrelated invalid-read entry. -/
def eInvalidRead : ValgrindError := ⟨2, 1, some "InvalidRead", none⟩

/-- A possible-leak entry whose explanation is absent. -/
def leakNoWhat : ValgrindError := ⟨3, 1, some "Leak_PossiblyLost", none⟩

/-- An `<error>` element with a plain-text `<what>` child (and no
`<xwhat>`), as the memory checker emits for an invalid read. -/
def invalidReadElem : Element :=
  .mk "error" none
    [.mk "unique" (some "0x1") [],
     .mk "tid" (some "1") [],
     .mk "kind" (some "InvalidRead") [],
     .mk "what" (some "Invalid read of size 4") []]

/-- A report root holding one error element. -/
def root0 : Element := .mk "valgrindoutput" none [invalidReadElem]

theorem leakSums_nil : leakSums [] = (0, 0) := rfl

theorem leakSums_cons (e : ValgrindError) (rest : List ValgrindError) :
    leakSums (e :: rest) =
      if isLeakKind e.kind then
        ((entryLost e).1 + (leakSums rest).1, (entryLost e).2 + (leakSums rest).2)
      else leakSums rest := rfl

/-- The accumulation loop returns the accumulated sums whenever every
leak-kind entry's field lookups succeed. -/
theorem memoryLostLoop_ok (l : List ValgrindError) :
    ∀ b k : Nat,
      (∀ e ∈ l, isLeakKind e.kind = true → isOkB (leakEntryLost e) = true) →
      memoryLostLoop l b k = .ok (b + (leakSums l).1, k + (leakSums l).2) := by
  induction l with
  | nil => intro b k _; simp [memoryLostLoop, leakSums_nil]
  | cons e rest ih =>
    intro b k h
    have htail : ∀ f ∈ rest, isLeakKind f.kind = true → isOkB (leakEntryLost f) = true :=
      fun f hf => h f (List.mem_cons_of_mem e hf)
    cases hlk : isLeakKind e.kind with
    | true =>
      have hok := h e (List.mem_cons_self e rest) hlk
      cases hle : leakEntryLost e with
      | error err => rw [hle] at hok; simp [isOkB] at hok
      | ok p =>
        obtain ⟨nb, nk⟩ := p
        have hent : entryLost e = (nb, nk) := by
          simp [entryLost, hle, Except.toOption]
        rw [show memoryLostLoop (e :: rest) b k = memoryLostLoop rest (b + nb) (k + nk) by
          simp [memoryLostLoop, hlk, hle]]
        rw [ih (b + nb) (k + nk) htail, leakSums_cons, hlk, hent]
        simp [Nat.add_assoc]
    | false =>
      rw [show memoryLostLoop (e :: rest) b k = memoryLostLoop rest b k by
        simp [memoryLostLoop, hlk]]
      rw [ih b k htail, leakSums_cons, hlk]
      simp

/-- Conversely, a normal return of the loop means every leak-kind entry's
field lookups succeeded. -/
theorem memoryLostLoop_ok_forall (l : List ValgrindError) :
    ∀ (b k : Nat) (p : Nat × Nat), memoryLostLoop l b k = .ok p →
      ∀ e ∈ l, isLeakKind e.kind = true → isOkB (leakEntryLost e) = true := by
  induction l with
  | nil => intro b k p _ e he; cases he
  | cons e rest ih =>
    intro b k p hp f hf hlkf
    rcases List.mem_cons.mp hf with rfl | hfr
    · rw [memoryLostLoop, if_pos hlkf] at hp
      cases hle : leakEntryLost f with
      | error err => rw [hle] at hp; cases hp
      | ok q => simp [isOkB, hle]
    · cases hlk : isLeakKind e.kind with
      | true =>
        rw [memoryLostLoop, if_pos hlk] at hp
        cases hle : leakEntryLost e with
        | error err => rw [hle] at hp; cases hp
        | ok q =>
          obtain ⟨nb, nk⟩ := q
          rw [hle] at hp
          exact ih (b + nb) (k + nk) p hp f hfr hlkf
      | false =>
        rw [memoryLostLoop, if_neg (by simp [hlk])] at hp
        exact ih b k p hp f hfr hlkf

/-- C1: on a parsed report, `memory_lost()` returns the pair of sums of
`leakedbytes` and `leakedblocks` over exactly the entries whose kind is one
of `Leak_DefinitelyLost`, `Leak_IndirectlyLost`, `Leak_PossiblyLost`;
entries of every other kind contribute nothing. -/
theorem memory_lost_sums_leak_kinds (rt : Runtime) (l : List ValgrindError)
    (h : ∀ e ∈ l, isLeakKind e.kind = true → isOkB (leakEntryLost e) = true) :
    ValgrindReport.memory_lost ⟨rt, some l⟩ = .ok (leakSums l) := by
  have main := memoryLostLoop_ok l 0 0 h
  simpa [ValgrindReport.memory_lost] using main

/-- C1 witness: one `Leak_DefinitelyLost` error with `leakedbytes=128`,
`leakedblocks=2` and one `InvalidRead` error give `memory_lost() = (128, 2)`. -/
theorem memory_lost_sums_leak_kinds_witness :
    ValgrindReport.memory_lost ⟨rt0, some [e128, eInvalidRead]⟩ = .ok (128, 2) :=
  (memory_lost_sums_leak_kinds rt0 [e128, eInvalidRead] (by decide)).trans (by rfl)

/-- C2: when the report file is absent after the process finishes, `run`
returns a report with the captured runtime and a `None` error list, raising
nothing and touching no file. -/
theorem valgrindRun_absent_file_null_errors (rt : Runtime) :
    valgrindRun rt none = (.ok ⟨rt, none⟩, none) := rfl

/-- C3: loading an error element whose explanation is a childless plain-text
`<what>` yields `what = None` — the `find("what") or find("xwhat")` idiom
discards a `<what>` element with no children because Python's `Element`
truthiness is `len(children) != 0` — even though `ValgrindWhat.load` applied
to that `<what>` element itself would produce the text explanation. -/
theorem valgrindError_load_drops_plain_what :
    ValgrindError.load invalidReadElem = .ok ⟨1, 1, some "InvalidRead", none⟩
    ∧ ValgrindWhat.load (some (.mk "what" (some "Invalid read of size 4") []))
        = some ⟨some "Invalid read of size 4", []⟩ :=
  ⟨rfl, rfl⟩

/-- C4: whenever the report file exists and `run` returns (parsing did not
raise), the file has been removed by the time it returns. -/
theorem valgrindRun_deletes_report_file (rt : Runtime) (root : Element) (rep : ValgrindReport)
    (h : (valgrindRun rt (some root)).1 = .ok rep) :
    (valgrindRun rt (some root)).2 = none := by
  rw [valgrindRun] at h ⊢
  cases hl : loadErrors root.children with
  | error err => simp [hl] at h
  | ok errs => rfl

/-- C4 witness: a report file with one well-formed error element is deleted. -/
theorem valgrindRun_deletes_report_file_witness :
    (valgrindRun rt0 (some root0)).2 = none :=
  valgrindRun_deletes_report_file rt0 root0 ⟨rt0, some [⟨1, 1, some "InvalidRead", none⟩]⟩ rfl

/-- C9: `memory_lost()` on a report whose error list is `None` — the value
`run` returns when the report file was absent — raises `TypeError`
(iterating `None`) rather than returning a pair. -/
theorem memory_lost_null_errors_raises (rt : Runtime) :
    ValgrindReport.memory_lost ⟨rt, none⟩ = .error .typeError := rfl

/-- C10 counterexample: a possible-leak entry whose explanation is absent
makes `memory_lost()` raise `AttributeError`, which is not a Python lookup
error — so the claim that a lookup error is raised fails at this input. -/
theorem memory_lost_absent_what_not_lookup_error :
    ValgrindReport.memory_lost ⟨rt0, some [leakNoWhat]⟩ = .error .attributeError
    ∧ PyError.isLookupError .attributeError = false :=
  ⟨rfl, rfl⟩

/-- C10 amended: if some leak-kind entry's field lookups fail, `memory_lost()`
raises an error rather than treating the missing values as zero: `KeyError`
(a lookup error) when the explanation is present but its field map lacks
`leakedbytes` — as for an explanation parsed from a plain-text `<what>`,
whose field map is empty — and `AttributeError` (not a lookup error) when
the explanation is absent. -/
theorem memory_lost_missing_fields_raises (rt : Runtime) (l : List ValgrindError)
    (u n : Nat) (k : Option String) (t : Option String)
    (h : ∃ e ∈ l, isLeakKind e.kind = true ∧ isOkB (leakEntryLost e) = false) :
    (∃ err, ValgrindReport.memory_lost ⟨rt, some l⟩ = .error err)
    ∧ leakEntryLost ⟨u, n, k, some ⟨t, []⟩⟩ = .error .keyError
    ∧ PyError.isLookupError .keyError = true
    ∧ leakEntryLost ⟨u, n, k, none⟩ = .error .attributeError
    ∧ PyError.isLookupError .attributeError = false := by
  refine ⟨?_, rfl, rfl, rfl, rfl⟩
  cases hm : ValgrindReport.memory_lost ⟨rt, some l⟩ with
  | error err => exact ⟨err, rfl⟩
  | ok p =>
    obtain ⟨e, he, hlk, hbad⟩ := h
    have hok : isOkB (leakEntryLost e) = true := by
      have hloop : memoryLostLoop l 0 0 = .ok p := by
        simpa [ValgrindReport.memory_lost] using hm
      exact memoryLostLoop_ok_forall l 0 0 p hloop e he hlk
    rw [hok] at hbad
    cases hbad

/-- C10 witness: a report with one explanation-less possible-leak entry
raises, and the two entry shapes raise `KeyError` and `AttributeError`
respectively. -/
theorem memory_lost_missing_fields_raises_witness :
    (∃ err, ValgrindReport.memory_lost ⟨rt0, some [leakNoWhat]⟩ = .error err)
    ∧ leakEntryLost ⟨7, 1, some "Leak_DefinitelyLost", some ⟨some "lost", []⟩⟩
        = .error .keyError
    ∧ PyError.isLookupError .keyError = true
    ∧ leakEntryLost ⟨7, 1, some "Leak_DefinitelyLost", none⟩ = .error .attributeError
    ∧ PyError.isLookupError .attributeError = false :=
  memory_lost_missing_fields_raises rt0 [leakNoWhat] 7 1 (some "Leak_DefinitelyLost")
    (some "lost") (by decide)

theorem reportInsert_fresh (rep : AssignmentReport) (k : String) (v : List Result)
    (h : ∀ q ∈ rep, q.1 ≠ k) : reportInsert rep k v = rep ++ [(k, v)] := by
  have hany : (List.any rep fun p => p.1 = k) = false := by
    rw [List.any_eq_false]
    intro x hx
    simpa using h x hx
  simp [reportInsert, hany]

/-- Folding dict assignment over problems with pairwise-distinct fresh keys
appends one entry per problem, in order. -/
theorem gradeFoldl_fresh (l : List GradingProblem) :
    ∀ acc : AssignmentReport,
      ((l.map fun p => p.short).Nodup) →
      (∀ q ∈ acc, ∀ p ∈ l, q.1 ≠ p.short) →
      l.foldl (fun rep p => reportInsert rep p.short p.graderResults) acc
        = acc ++ l.map (fun p => (p.short, p.graderResults)) := by
  induction l with
  | nil => intro acc _ _; simp
  | cons p rest ih =>
    intro acc hnd hfresh
    rw [List.map_cons, List.nodup_cons] at hnd
    obtain ⟨hnotin, hnd'⟩ := hnd
    have h1 : reportInsert acc p.short p.graderResults = acc ++ [(p.short, p.graderResults)] :=
      reportInsert_fresh acc p.short p.graderResults
        (fun q hq => hfresh q hq p (List.mem_cons_self p rest))
    have hfresh' : ∀ q ∈ acc ++ [(p.short, p.graderResults)], ∀ r ∈ rest, q.1 ≠ r.short := by
      intro q hq r hr
      rcases List.mem_append.mp hq with hqa | hql
      · exact hfresh q hqa r (List.mem_cons_of_mem p hr)
      · rcases List.mem_singleton.mp hql with rfl
        show p.short ≠ r.short
        intro hEq
        apply hnotin
        rw [hEq]
        exact List.mem_map_of_mem (fun r => r.short) hr
    rw [List.foldl_cons, h1, ih (acc ++ [(p.short, p.graderResults)]) hnd' hfresh']
    simp

/-- C5: for an assignment whose automated problems have pairwise-distinct
short names, the report produced by `run` has exactly those short names as
keys, in assignment order, each mapping to that problem's ordered result
sequence. -/
theorem curriculaRun_keys_in_assignment_order (a : GradingAssignment)
    (h : ((a.problems.filter fun p => p.is_automated).map fun p => p.short).Nodup) :
    reportKeys (curriculaRun a)
        = (a.problems.filter fun p => p.is_automated).map (fun p => p.short)
    ∧ curriculaRun a
        = (a.problems.filter fun p => p.is_automated).map
            (fun p => (p.short, p.graderResults)) := by
  have hmain := gradeFoldl_fresh (a.problems.filter fun p => p.is_automated) [] h (by simp)
  rw [curriculaRun, hmain]
  constructor
  · simp [reportKeys]
  · simp

/-- An automated problem with one passing test. -/
def prob1 : GradingProblem := ⟨"p1", "p1", true, [⟨"t1", .passed, [], []⟩]⟩

/-- A problem that is not automated. -/
def prob2 : GradingProblem := ⟨"p2", "p2", false, []⟩

/-- An automated problem with one failing test. -/
def prob3 : GradingProblem := ⟨"p3", "p3", true, [⟨"t2", .failed, [], ["err"]⟩]⟩

/-- A sample three-problem assignment. -/
def asg0 : GradingAssignment := ⟨[prob1, prob2, prob3]⟩

/-- C5 witness: the sample assignment's report has keys `p1`, `p3` in order,
skipping the non-automated `p2`. -/
theorem curriculaRun_keys_in_assignment_order_witness :
    reportKeys (curriculaRun asg0) = ["p1", "p3"]
    ∧ curriculaRun asg0
        = [("p1", [⟨"t1", .passed, [], []⟩]), ("p3", [⟨"t2", .failed, [], ["err"]⟩])] := by
  have h := curriculaRun_keys_in_assignment_order asg0 (by decide)
  exact ⟨h.1.trans (by rfl), h.2.trans (by rfl)⟩

/-- C6: `grade single <target> <report>` always raises `NameError` — the
name `grader` is never bound at module level in `plugin.py` — so no report
is written and the exit is non-zero on every invocation. -/
theorem gradePluginRun_single_raises_nameError (cwd target report : String) :
    gradePluginRun cwd "single" target report = .error .nameError := rfl

/-- C7: a process terminated by a signal within the deadline yields the
negative signal number as exit code and no timeout; a process still running
at the deadline yields `timeout = true`, an undefined exit code, and the
output produced before termination. -/
theorem processRun_signal_and_timeout (sg : Nat) (out err : String) (el t : Nat)
    (h : el ≤ t) :
    (processRun (.signaled sg out err el) t).code = some (-(sg : Int))
    ∧ (processRun (.signaled sg out err el) t).timeout = false
    ∧ (processRun (.hangs out err) t).timeout = true
    ∧ (processRun (.hangs out err) t).code = none
    ∧ (processRun (.hangs out err) t).stdout = out
    ∧ (processRun (.hangs out err) t).stderr = err := by
  refine ⟨?_, ?_, rfl, rfl, rfl, rfl⟩ <;> simp [processRun, h]

/-- C7 witness: a segmentation fault (signal 11) under a 1-second deadline
gives exit code `-11`; a hanging process gives a timed-out runtime with its
partial output. -/
theorem processRun_signal_and_timeout_witness :
    (processRun (.signaled 11 "" "Segmentation fault" 0) 1).code = some (-11)
    ∧ (processRun (.signaled 11 "" "Segmentation fault" 0) 1).timeout = false
    ∧ (processRun (.hangs "" "Segmentation fault") 1).timeout = true
    ∧ (processRun (.hangs "" "Segmentation fault") 1).code = none
    ∧ (processRun (.hangs "" "Segmentation fault") 1).stdout = ""
    ∧ (processRun (.hangs "" "Segmentation fault") 1).stderr = "Segmentation fault" :=
  processRun_signal_and_timeout 11 "" "Segmentation fault" 0 1 (by decide)

theorem parseStrs_map (l : List String) : parseStrs (l.map Json.str) = some l := by
  induction l with
  | nil => rfl
  | cons s rest ih => simp [parseStrs, ih]

theorem parseStrPairs_map (d : List (String × String)) :
    parseStrPairs (d.map fun p => (p.1, Json.str p.2)) = some d := by
  induction d with
  | nil => rfl
  | cons p rest ih =>
    obtain ⟨k, v⟩ := p
    simp [parseStrPairs, ih]

theorem status_parse_dump (s : Status) : Status.parse s.dump = some s := by
  cases s <;> rfl

theorem result_parse_dump (r : Result) : Result.parse r.dump = some r := by
  obtain ⟨n, st, d, lg⟩ := r
  simp [Result.dump, Result.parse, status_parse_dump, parseStrPairs_map, parseStrs_map]

theorem parseResults_map (l : List Result) : parseResults (l.map Result.dump) = some l := by
  induction l with
  | nil => rfl
  | cons r rest ih => simp [parseResults, result_parse_dump, ih]

theorem parseReportEntries_map (rep : List (String × List Result)) :
    parseReportEntries (rep.map fun p => (p.1, Json.arr (p.2.map Result.dump))) = some rep := by
  induction rep with
  | nil => rfl
  | cons p rest ih =>
    obtain ⟨k, rs⟩ := p
    simp [parseReportEntries, parseResults_map, ih]

/-- C8: dumping an assignment report and parsing the dump back yields the
identical ordered structure and field values. -/
theorem assignmentReport_dump_parse_roundtrip (rep : AssignmentReport) :
    AssignmentReport.parse (AssignmentReport.dump rep) = some rep := by
  simp [AssignmentReport.dump, AssignmentReport.parse, parseReportEntries_map]

end Curricula
